import Mathlib

/-!
Verification development for the authentication and session-security
subsystem of Nexus Optimizer Pro (server code: routes.ts, auth.ts,
storage module, utils.ts).

Modelling conventions:
* Time is a Nat clock in milliseconds (JavaScript Date.now()).  The
  jsonwebtoken library counts seconds; the model keeps a single
  millisecond clock, which rescales the TTL without changing any
  comparison outcome.
* JavaScript Map objects iterate in insertion order; they are modelled
  as lists, with updates that keep the position of an existing key and
  append a fresh key.
* randomUUID keys are modelled as the map they key into, so a user map
  becomes a list of User values (the id field is the key) and updates
  rewrite the entries whose id matches.
* bcrypt hashing and comparison live in an external library; they are
  passed in as function parameters (compare, hash) exactly where the
  route code calls them.
-/

namespace Nexus

/-! ## Constants (routes.ts, utils.ts, auth.ts) -/

/-- 15 minutes in milliseconds: the lockout duration in routes.ts
(15 * 60 * 1000). -/
def lockoutDurationMs : Nat := 15 * 60 * 1000

/-- 15 minutes in milliseconds: the rate-limit window in utils.ts. -/
def rateWindowMs : Nat := 15 * 60 * 1000

/-- The retryAfter value (in seconds) returned by the rateLimiter
middleware in auth.ts ("900 // 15 minutes in seconds"). -/
def retryAfterSec : Nat := 900

/-- 7 days, the JWT TTL ("7d"), expressed on the model clock. -/
def sevenDaysMs : Nat := 7 * 24 * 60 * 60 * 1000

/-- Default JWT secret of the auth.ts token-service module
(process.env.JWT_SECRET unset). -/
def JWT_SECRET : String := "nexus-optimizer-secret-key-change-in-production"

/-- Default JWT secret used by the jwt.sign calls inside routes.ts
(process.env.JWT_SECRET unset). -/
def ROUTES_JWT_SECRET : String := "your-secret-key"

/-! ## Data model (shared/schema.ts, storage module) -/

/-- A user record as created by MemStorage.createUser. -/
structure User where
  id : String
  username : String
  email : Option String
  passwordHash : String
  createdAt : Nat
  lastLogin : Option Nat
  twoFactorSecret : Option String
  twoFactorEnabled : Bool
  isLocked : Bool
  lockoutUntil : Option Nat
  failedLoginAttempts : Nat
  deriving Repr, DecidableEq

/-- A password-reset ticket as created by MemStorage.createPasswordReset. -/
structure PasswordReset where
  id : String
  userId : String
  token : String
  expiresAt : Nat
  used : Bool
  createdAt : Nat
  deriving Repr, DecidableEq

/-- A security-log entry as created by MemStorage.createSecurityLog.
The randomUUID key is modelled as a Nat sequence number. -/
structure SecurityLog where
  id : Nat
  userId : Option String
  action : String
  details : String
  ipAddress : Option String
  userAgent : Option String
  timestamp : Nat
  deriving Repr, DecidableEq

/-- The insert shape passed to createSecurityLog (no id, no timestamp). -/
structure InsertSecurityLog where
  userId : Option String
  action : String
  details : String
  ipAddress : Option String
  userAgent : Option String
  deriving Repr, DecidableEq

/-- The MemStorage state relevant to the authentication subsystem:
users, password resets and security logs, each a Map in insertion
order. -/
structure Store where
  users : List User
  passwordResets : List PasswordReset
  securityLogs : List SecurityLog
  deriving Repr, DecidableEq

/-! ## Storage operations (MemStorage) -/

/-- MemStorage.getUserByUsername: first user whose username matches. -/
def getUserByUsername (st : Store) (username : String) : Option User :=
  st.users.find? (fun u => u.username = username)

/-- MemStorage.getUserById. -/
def getUserById (st : Store) (id : String) : Option User :=
  st.users.find? (fun u => u.id = id)

/-- Rewrite the user entries whose id matches; a missing id leaves the
store unchanged, matching the `if (user)` guards in MemStorage. -/
def updateUser (st : Store) (id : String) (f : User → User) : Store :=
  { st with users := st.users.map (fun u => if u.id = id then f u else u) }

/-- MemStorage.incrementFailedLogins:
failedLoginAttempts := (failedLoginAttempts or 0) + 1. -/
def incrementFailedLogins (st : Store) (id : String) : Store :=
  updateUser st id (fun u => { u with failedLoginAttempts := u.failedLoginAttempts + 1 })

/-- MemStorage.lockUser: isLocked := true, lockoutUntil := until. -/
def lockUser (st : Store) (id : String) (until_ : Nat) : Store :=
  updateUser st id (fun u => { u with isLocked := true, lockoutUntil := some until_ })

/-- MemStorage.unlockUser: isLocked := false, lockoutUntil := null,
failedLoginAttempts := 0. -/
def unlockUser (st : Store) (id : String) : Store :=
  updateUser st id (fun u =>
    { u with isLocked := false, lockoutUntil := none, failedLoginAttempts := 0 })

/-- MemStorage.updateUserLastLogin. -/
def updateUserLastLogin (st : Store) (id : String) (now : Nat) : Store :=
  updateUser st id (fun u => { u with lastLogin := some now })

/-- The password-hash replacement performed inline by the
password-reset route: user.passwordHash = passwordHash; users.set(...). -/
def updateUserPasswordHash (st : Store) (id : String) (passwordHash : String) : Store :=
  updateUser st id (fun u => { u with passwordHash := passwordHash })

/-- MemStorage.createSecurityLog: build the entry with a fresh key and
the current timestamp, append it (Map insertion order), and return it.
The utils.ts wrapper swallows storage errors; the in-memory create
cannot fail, so the wrapper is the identity on outcomes. -/
def createSecurityLog (st : Store) (e : InsertSecurityLog) (now : Nat) :
    Store × SecurityLog :=
  let entry : SecurityLog :=
    { id := st.securityLogs.length
      userId := e.userId
      action := e.action
      details := e.details
      ipAddress := e.ipAddress
      userAgent := e.userAgent
      timestamp := now }
  ({ st with securityLogs := st.securityLogs ++ [entry] }, entry)

/-- MemStorage.getSecurityLogs: all entries, filtered by userId when one
is given, in insertion order. -/
def getSecurityLogs (st : Store) (userId : Option String) : List SecurityLog :=
  match userId with
  | some uid => st.securityLogs.filter (fun l => l.userId = some uid)
  | none => st.securityLogs

/-- MemStorage.getPasswordResetByToken: first reset whose token matches
and that is not used. -/
def getPasswordResetByToken (st : Store) (token : String) : Option PasswordReset :=
  st.passwordResets.find? (fun r => r.token = token && !r.used)

/-- MemStorage.markPasswordResetUsed. -/
def markPasswordResetUsed (st : Store) (id : String) : Store :=
  { st with
    passwordResets :=
      st.passwordResets.map (fun r => if r.id = id then { r with used := true } else r) }

/-! ## Rate limiter (utils.ts isRateLimited, auth.ts rateLimiter) -/

/-- One record of the global rateLimitStore map. -/
structure RateRecord where
  count : Nat
  firstAttempt : Nat
  deriving Repr, DecidableEq

/-- The global rateLimitStore: a Map from "ip:action" keys to records,
in insertion order. -/
abbrev RateStore : Type := List (String × RateRecord)

/-- Map.get on the rate store. -/
def rateGet : RateStore → String → Option RateRecord
  | [], _ => none
  | p :: rest, k => if p.1 = k then some p.2 else rateGet rest k

/-- Map.set on the rate store: overwrite in place when the key exists,
append otherwise. -/
def rateSet : RateStore → String → RateRecord → RateStore
  | [], k, v => [(k, v)]
  | p :: rest, k, v => if p.1 = k then (k, v) :: rest else p :: rateSet rest k v

/-- utils.ts isRateLimited, returning the boolean together with the
updated store.  The TS reset test `now - record.firstAttempt > window`
is written `firstAttempt + window < now`, which agrees with it on every
input (a JS negative difference is below the window too). -/
def isRateLimited (store : RateStore) (ip action : String) (now : Nat) :
    Bool × RateStore :=
  let key := ip ++ ":" ++ action
  match rateGet store key with
  | none => (false, rateSet store key { count := 1, firstAttempt := now })
  | some record =>
    if record.firstAttempt + rateWindowMs < now then
      (false, rateSet store key { count := 1, firstAttempt := now })
    else if 5 ≤ record.count then
      (true, store)
    else
      (false, rateSet store key { record with count := record.count + 1 })

/-- Outcome of the rateLimiter middleware. -/
inductive RateLimitOutcome where
  | pass
  | rejected (retryAfter : Nat)
  deriving Repr, DecidableEq

/-- auth.ts rateLimiter: consult isRateLimited and reject with
retryAfter 900 seconds, or fall through to the handler. -/
def rateLimiter (store : RateStore) (ip path : String) (now : Nat) :
    RateLimitOutcome × RateStore :=
  let res := isRateLimited store ip path now
  if res.1 then (.rejected retryAfterSec, res.2) else (.pass, res.2)

/-! ## Token service (auth.ts) -/

/-- Claims carried by a signed token.  generateToken signs userId and
username only; the jwt.sign calls in routes.ts additionally embed
twoFactorEnabled, so that claim is optional. -/
structure JWTPayload where
  userId : String
  username : String
  twoFactorEnabled : Option Bool
  iat : Nat
  exp : Nat
  deriving Repr, DecidableEq

/-- A bearer token: either a well-formed JWT carrying its payload and
the secret it was signed under, or a malformed string. -/
inductive Token where
  | signed (payload : JWTPayload) (secret : String)
  | malformed (raw : String)
  deriving Repr, DecidableEq

/-- jwt.sign with expiresIn: stamp iat := now and exp := now + ttl and
sign under the given secret. -/
def jwtSign (userId username : String) (twoFactorEnabled : Option Bool)
    (secret : String) (now ttl : Nat) : Token :=
  Token.signed
    { userId := userId, username := username, twoFactorEnabled := twoFactorEnabled
      iat := now, exp := now + ttl } secret

/-- jwt.verify: the payload when the signature matches the secret and
the token is not expired (jsonwebtoken rejects once now reaches exp),
an error otherwise.  Malformed tokens always fail. -/
def jwtVerify (tok : Token) (secret : String) (now : Nat) : Option JWTPayload :=
  match tok with
  | .malformed _ => none
  | .signed payload s =>
    if s = secret ∧ now < payload.exp then some payload else none

/-- auth.ts generateToken: sign userId and username under JWT_SECRET
with a 7-day TTL. -/
def generateToken (user : User) (now : Nat) : Token :=
  jwtSign user.id user.username none JWT_SECRET now sevenDaysMs

/-- auth.ts verifyToken: jwt.verify under JWT_SECRET, with every
failure collapsed to the null sentinel by the try/catch. -/
def verifyToken (tok : Token) (now : Nat) : Option JWTPayload :=
  jwtVerify tok JWT_SECRET now

/-- Outcome of the authenticateToken middleware. -/
inductive AuthOutcome where
  /-- 401: no token on the Authorization header. -/
  | missingToken
  /-- 403: verifyToken returned the null sentinel. -/
  | invalidToken
  /-- The request proceeds with req.user := payload. -/
  | authenticated (payload : JWTPayload)
  deriving Repr, DecidableEq

/-- auth.ts authenticateToken: require a bearer token, verify it, and
attach the payload to the request. -/
def authenticateToken (tok : Option Token) (now : Nat) : AuthOutcome :=
  match tok with
  | none => .missingToken
  | some t =>
    match verifyToken t now with
    | none => .invalidToken
    | some payload => .authenticated payload

/-! ## Login route (routes.ts POST /auth/login) -/

/-- Result of the login handler (after the rateLimiter middleware and
schema validation, which are modelled separately). -/
inductive LoginResult where
  /-- 401 Invalid credentials. -/
  | invalidCredentials
  /-- 423 with the lockoutUntil timestamp. -/
  | accountLocked (lockoutUntil : Nat)
  /-- 400 Two-factor authentication code required. -/
  | twoFactorRequired
  /-- 401 Invalid two-factor authentication code. -/
  | invalidTwoFactorCode
  /-- 200 with the issued token. -/
  | success (token : Token)
  deriving Repr, DecidableEq

/-- The success tail of the login handler: unlock when locked, update
lastLogin, sign a 7-day token embedding twoFactorEnabled, and log
login_success. -/
def loginFinish (st : Store) (user : User) (now : Nat) (ip ua : Option String) :
    LoginResult × Store :=
  let st1 := if user.isLocked then unlockUser st user.id else st
  let st2 := updateUserLastLogin st1 user.id now
  let token := jwtSign user.id user.username (some user.twoFactorEnabled)
    ROUTES_JWT_SECRET now sevenDaysMs
  let st3 := (createSecurityLog st2
    { userId := some user.id, action := "login_success"
      details := "User logged in successfully", ipAddress := ip, userAgent := ua } now).1
  (.success token, st3)

/-- The failed-password branch of the login handler.  MemStorage
mutates the user object shared with the route, so after
incrementFailedLogins the route reads the incremented counter: the
lock test compares user.failedLoginAttempts + 1 against 4. -/
def loginFailedPassword (st : Store) (user : User) (now : Nat)
    (ip ua : Option String) : LoginResult × Store :=
  let st1 := incrementFailedLogins st user.id
  let attempts := user.failedLoginAttempts + 1
  if 4 ≤ attempts then
    let lockoutUntil := now + lockoutDurationMs
    let st2 := lockUser st1 user.id lockoutUntil
    let st3 := (createSecurityLog st2
      { userId := some user.id, action := "account_locked"
        details := "Account locked due to too many failed login attempts"
        ipAddress := ip, userAgent := ua } now).1
    (.accountLocked lockoutUntil, st3)
  else
    let st2 := (createSecurityLog st1
      { userId := some user.id, action := "login_failed"
        details := "Failed login attempt for user: " ++ user.id
        ipAddress := ip, userAgent := ua } now).1
    (.invalidCredentials, st2)

/-- The handler stages from the bcrypt comparison on: password check,
2FA check when enabled, then the success tail. -/
def loginPasswordStage (compare : String → String → Bool) (st : Store)
    (user : User) (password : String) (twoFactorCode : Option String)
    (now : Nat) (ip ua : Option String) : LoginResult × Store :=
  if compare password user.passwordHash then
    if user.twoFactorEnabled then
      match twoFactorCode with
      | none => (.twoFactorRequired, st)
      | some code =>
        if code = "123456" then
          loginFinish st user now ip ua
        else
          let st1 := (createSecurityLog st
            { userId := some user.id, action := "2fa_failed"
              details := "Invalid 2FA code provided", ipAddress := ip, userAgent := ua } now).1
          (.invalidTwoFactorCode, st1)
    else
      loginFinish st user now ip ua
  else
    loginFailedPassword st user now ip ua

/-- routes.ts POST /auth/login after the rateLimiter middleware, with
the bcrypt comparison passed in as the compare parameter.  The lockout
check mirrors `user.isLocked && user.lockoutUntil && lockoutUntil >
now` (a null lockoutUntil is falsy). -/
def loginRoute (compare : String → String → Bool) (st : Store)
    (username password : String) (twoFactorCode : Option String)
    (now : Nat) (ip ua : Option String) : LoginResult × Store :=
  match getUserByUsername st username with
  | none =>
    let st1 := (createSecurityLog st
      { userId := none, action := "login_failed"
        details := "Failed login attempt for username: " ++ username
        ipAddress := ip, userAgent := ua } now).1
    (.invalidCredentials, st1)
  | some user =>
    match user.lockoutUntil with
    | some t =>
      if user.isLocked ∧ now < t then
        (.accountLocked t, st)
      else
        loginPasswordStage compare st user password twoFactorCode now ip ua
    | none =>
      loginPasswordStage compare st user password twoFactorCode now ip ua

/-! ## Token refresh (routes.ts POST /auth/refresh) -/

/-- Result of the refresh endpoint including its authenticateToken
middleware. -/
inductive RefreshResult where
  /-- 401: missing token. -/
  | missingToken
  /-- 403: invalid or expired token. -/
  | invalidToken
  /-- 401: token valid but the user id is gone from the store. -/
  | userNotFound
  /-- 200 with a fresh token. -/
  | success (token : Token)
  deriving Repr, DecidableEq

/-- routes.ts POST /auth/refresh behind authenticateToken: look the
user up by the token claims and mint a fresh 7-day token. -/
def refreshRoute (st : Store) (tok : Option Token) (now : Nat) :
    RefreshResult × Store :=
  match authenticateToken tok now with
  | .missingToken => (.missingToken, st)
  | .invalidToken => (.invalidToken, st)
  | .authenticated payload =>
    match getUserById st payload.userId with
    | none => (.userNotFound, st)
    | some user =>
      (.success (jwtSign user.id user.username (some user.twoFactorEnabled)
        ROUTES_JWT_SECRET now sevenDaysMs), st)

/-! ## Password reset completion (routes.ts POST /auth/password-reset) -/

/-- Result of the password-reset completion handler. -/
inductive ResetResult where
  /-- 400 Invalid or expired reset token (no usable ticket found). -/
  | invalidToken
  /-- 400 Reset token has expired. -/
  | expiredToken
  /-- 200 Password reset successfully. -/
  | success
  deriving Repr, DecidableEq

/-- routes.ts POST /auth/password-reset after the rateLimiter
middleware, with bcrypt hashing passed in as the hash parameter. -/
def passwordResetRoute (hash : String → String) (st : Store)
    (token newPassword : String) (now : Nat) (ip ua : Option String) :
    ResetResult × Store :=
  match getPasswordResetByToken st token with
  | none => (.invalidToken, st)
  | some resetRecord =>
    if resetRecord.expiresAt < now then
      (.expiredToken, st)
    else
      let passwordHash := hash newPassword
      let st1 :=
        match getUserById st resetRecord.userId with
        | some user => updateUserPasswordHash st user.id passwordHash
        | none => st
      let st2 := markPasswordResetUsed st1 resetRecord.id
      let st3 := (createSecurityLog st2
        { userId := some resetRecord.userId, action := "password_reset_completed"
          details := "Password reset completed", ipAddress := ip, userAgent := ua } now).1
      (.success, st3)

/-! ## Helper lemmas -/

/-- Updating the entries of a given id and then looking that id up
returns the updated entry, provided the update keeps ids. -/
theorem find?_id_map_update (l : List User) (i : String) (f : User → User)
    (hf : ∀ u, (f u).id = u.id) :
    (l.map (fun u => if u.id = i then f u else u)).find? (fun u => u.id = i)
      = (l.find? (fun u => u.id = i)).map f := by
  induction l with
  | nil => rfl
  | cons a l ih =>
    by_cases h : a.id = i
    · simp [List.find?, h, hf]
    · simp [List.find?, h, ih]

/-- getUserById through updateUser, for id-preserving updates. -/
theorem getUserById_updateUser (st : Store) (i : String) (f : User → User)
    (hf : ∀ u, (f u).id = u.id) :
    getUserById (updateUser st i f) i = (getUserById st i).map f :=
  find?_id_map_update st.users i f hf

/-- createSecurityLog does not touch the user map. -/
theorem getUserById_createSecurityLog (st : Store) (e : InsertSecurityLog)
    (now : Nat) (i : String) :
    getUserById (createSecurityLog st e now).1 i = getUserById st i := rfl

/-- getUserById through unlockUser. -/
theorem getUserById_unlockUser (st : Store) (i : String) :
    getUserById (unlockUser st i) i
      = (getUserById st i).map (fun u =>
          { u with isLocked := false, lockoutUntil := none, failedLoginAttempts := 0 }) :=
  getUserById_updateUser st i _ (fun _ => rfl)

/-- getUserById through incrementFailedLogins. -/
theorem getUserById_incrementFailedLogins (st : Store) (i : String) :
    getUserById (incrementFailedLogins st i) i
      = (getUserById st i).map (fun u =>
          { u with failedLoginAttempts := u.failedLoginAttempts + 1 }) :=
  getUserById_updateUser st i _ (fun _ => rfl)

/-- getUserById through lockUser. -/
theorem getUserById_lockUser (st : Store) (i : String) (t : Nat) :
    getUserById (lockUser st i t) i
      = (getUserById st i).map (fun u =>
          { u with isLocked := true, lockoutUntil := some t }) :=
  getUserById_updateUser st i _ (fun _ => rfl)

/-- getUserById through updateUserLastLogin. -/
theorem getUserById_updateUserLastLogin (st : Store) (i : String) (now : Nat) :
    getUserById (updateUserLastLogin st i now) i
      = (getUserById st i).map (fun u => { u with lastLogin := some now }) :=
  getUserById_updateUser st i _ (fun _ => rfl)

/-- getUserById through updateUserPasswordHash. -/
theorem getUserById_updateUserPasswordHash (st : Store) (i h : String) :
    getUserById (updateUserPasswordHash st i h) i
      = (getUserById st i).map (fun u => { u with passwordHash := h }) :=
  getUserById_updateUser st i _ (fun _ => rfl)

/-! ## Demo data for concrete evaluations -/

/-- Stand-in for the bcrypt comparison in concrete scenarios: the
stored hash is the password itself. -/
def demoCompare : String → String → Bool := fun p h => p == h

/-- Stand-in for bcrypt hashing in concrete scenarios. -/
def demoHash : String → String := fun p => p

/-- A freshly signed-up user (createUser defaults: not locked, zero
failed attempts). -/
def demoUser : User :=
  { id := "u1", username := "alice", email := some "alice@example.com"
    passwordHash := "Passw0rd", createdAt := 0, lastLogin := none
    twoFactorSecret := none, twoFactorEnabled := false, isLocked := false
    lockoutUntil := none, failedLoginAttempts := 0 }

/-- A store holding just the fresh user. -/
def demoStore : Store :=
  { users := [demoUser], passwordResets := [], securityLogs := [] }

/-- Run n consecutive wrong-password login attempts for alice at time
1000. -/
def failN : Nat → Store → Store
  | 0, st => st
  | n + 1, st => failN n (loginRoute demoCompare st "alice" "wrong0Pass" none 1000 none none).2

/-! ## C1 -/

/-- C1: the claim says the 5th consecutive failed attempt locks the
account and no earlier failure does.  Evaluating the login route on a
fresh account: the first three failures leave the account active with
the counter at 3, and the fourth failure already returns 423 and locks
the account until attempt time + 15 minutes with the counter at 4.
MemStorage.incrementFailedLogins mutates the user object the route
still holds, so the "lock after 5" test compares the post-increment
counter with 4 and fires one failure early, against the claim and the
comment in routes.ts. -/
theorem lock_fires_on_fourth_failure :
    (getUserByUsername (failN 3 demoStore) "alice").map
        (fun u => (u.isLocked, u.failedLoginAttempts)) = some (false, 3)
  ∧ (loginRoute demoCompare (failN 3 demoStore) "alice" "wrong0Pass" none 1000 none none).1
      = .accountLocked (1000 + lockoutDurationMs)
  ∧ (getUserByUsername
        (loginRoute demoCompare (failN 3 demoStore) "alice" "wrong0Pass" none 1000 none none).2
        "alice").map (fun u => (u.isLocked, u.lockoutUntil, u.failedLoginAttempts))
      = some (true, some (1000 + lockoutDurationMs), 4) :=
  ⟨rfl, rfl, rfl⟩

/-! ## C2 -/

/-- The fresh user with two failed attempts on record and no lockout. -/
def demoUserTwoFailures : User := { demoUser with failedLoginAttempts := 2 }

/-- A store holding the user with two failed attempts. -/
def demoStoreTwoFailures : Store :=
  { users := [demoUserTwoFailures], passwordResets := [], securityLogs := [] }

/-- C2: the claim says every successful login resets failedAttempts to
0, including when the account is not locked with failedAttempts > 0.
Evaluating the login route on an unlocked account with
failedLoginAttempts = 2 and the correct password: the login succeeds,
yet the counter is still 2 afterwards (the route only calls unlockUser
when user.isLocked, and resetFailedLogins is never called). -/
theorem successful_login_keeps_counter_when_unlocked :
    (loginRoute demoCompare demoStoreTwoFailures "alice" "Passw0rd" none 5000 none none).1
      = .success (jwtSign "u1" "alice" (some false) ROUTES_JWT_SECRET 5000 sevenDaysMs)
  ∧ (getUserByUsername
        (loginRoute demoCompare demoStoreTwoFailures "alice" "Passw0rd" none 5000 none none).2
        "alice").map (fun u => u.failedLoginAttempts) = some 2
  ∧ ¬ (getUserByUsername
        (loginRoute demoCompare demoStoreTwoFailures "alice" "Passw0rd" none 5000 none none).2
        "alice").map (fun u => u.failedLoginAttempts) = some 0 :=
  ⟨rfl, rfl, by decide⟩

/-! ## C3 -/

/-- C3: any login attempt against a locked account while now is before
lockedUntil is rejected with 423 carrying the lockout deadline, for
every password (correct ones included), and the store is returned
unchanged. -/
theorem locked_account_rejects_all_attempts
    (compare : String → String → Bool) (st : Store)
    (username password : String) (tfc : Option String)
    (now : Nat) (ip ua : Option String) (user : User) (t : Nat)
    (hu : getUserByUsername st username = some user)
    (hL : user.isLocked = true) (ht : user.lockoutUntil = some t)
    (hnow : now < t) :
    loginRoute compare st username password tfc now ip ua = (.accountLocked t, st) := by
  unfold loginRoute
  rw [hu]
  dsimp only
  rw [ht]
  simp [hL, hnow]

/-- The fresh user, locked until time 901000 with four failures on
record. -/
def demoLockedUser : User :=
  { demoUser with isLocked := true, lockoutUntil := some 901000, failedLoginAttempts := 4 }

/-- A store holding just the locked user. -/
def demoLockedStore : Store :=
  { users := [demoLockedUser], passwordResets := [], securityLogs := [] }

/-- Witness for C3: the locked account rejects the correct password at
a time inside the lockout window, leaving the store unchanged. -/
theorem locked_account_rejects_all_attempts_witness :
    loginRoute demoCompare demoLockedStore "alice" "Passw0rd" none 2000 none none
      = (.accountLocked 901000, demoLockedStore) :=
  locked_account_rejects_all_attempts demoCompare demoLockedStore "alice" "Passw0rd" none 2000
    none none demoLockedUser 901000 rfl rfl rfl (by decide)

/-! ## C4 -/

/-- Counterexample for C4: the claim says the first authentication
attempt at now >= lockedUntil clears failedAttempts to 0 regardless of
whether the password is correct.  Evaluating the login route on the
locked account (lockedUntil 901000, 4 failures) at time 901000 with a
wrong password: the counter goes to 5 and the account is re-locked,
not cleared to 0. -/
theorem expired_lockout_failure_not_cleared :
    (getUserByUsername
        (loginRoute demoCompare demoLockedStore "alice" "wrong0Pass" none 901000 none none).2
        "alice").map (fun u => (u.isLocked, u.failedLoginAttempts))
      = some (true, 5)
  ∧ ¬ (getUserByUsername
        (loginRoute demoCompare demoLockedStore "alice" "wrong0Pass" none 901000 none none).2
        "alice").map (fun u => u.failedLoginAttempts) = some 0 :=
  ⟨rfl, by decide⟩

/-- C4 (amended): once lockedUntil has passed, the lockout check no
longer rejects and the attempt is processed as against an unlocked
account; the unlock that clears failedAttempts to 0 happens only when
the attempt succeeds (the password verifies and, when 2FA is enabled,
the code check passes): a correct-password attempt that fails the 2FA
check (missing or wrong code) leaves the stored user record unchanged,
and a wrong password increments the counter instead and, the
incremented count being at the threshold, re-locks the account for 15
minutes. -/
theorem lazy_unlock_only_on_success
    (compare : String → String → Bool) (st : Store)
    (username password : String) (tfc : Option String)
    (now : Nat) (ip ua : Option String) (user : User) (t : Nat)
    (hu : getUserByUsername st username = some user)
    (hid : getUserById st user.id = some user)
    (hL : user.isLocked = true) (ht : user.lockoutUntil = some t)
    (hnow : t ≤ now) :
    loginRoute compare st username password tfc now ip ua
      = loginPasswordStage compare st user password tfc now ip ua
  ∧ (compare password user.passwordHash = true →
      (user.twoFactorEnabled = false →
        (loginRoute compare st username password tfc now ip ua).1
            = .success (jwtSign user.id user.username (some user.twoFactorEnabled)
                ROUTES_JWT_SECRET now sevenDaysMs)
          ∧ getUserById (loginRoute compare st username password tfc now ip ua).2 user.id
            = some { user with
                isLocked := false, lockoutUntil := none,
                failedLoginAttempts := 0, lastLogin := some now })
      ∧ (user.twoFactorEnabled = true → tfc = some "123456" →
        (loginRoute compare st username password tfc now ip ua).1
            = .success (jwtSign user.id user.username (some user.twoFactorEnabled)
                ROUTES_JWT_SECRET now sevenDaysMs)
          ∧ getUserById (loginRoute compare st username password tfc now ip ua).2 user.id
            = some { user with
                isLocked := false, lockoutUntil := none,
                failedLoginAttempts := 0, lastLogin := some now })
      ∧ (user.twoFactorEnabled = true → tfc = none →
        loginRoute compare st username password tfc now ip ua = (.twoFactorRequired, st))
      ∧ (∀ code, user.twoFactorEnabled = true → tfc = some code → code ≠ "123456" →
        (loginRoute compare st username password tfc now ip ua).1 = .invalidTwoFactorCode
          ∧ getUserById (loginRoute compare st username password tfc now ip ua).2 user.id
            = some user))
  ∧ (compare password user.passwordHash = false →
      (4 ≤ user.failedLoginAttempts + 1 →
        (loginRoute compare st username password tfc now ip ua).1
            = .accountLocked (now + lockoutDurationMs)
          ∧ getUserById (loginRoute compare st username password tfc now ip ua).2 user.id
            = some { user with
                isLocked := true,
                lockoutUntil := some (now + lockoutDurationMs),
                failedLoginAttempts := user.failedLoginAttempts + 1 })
      ∧ (user.failedLoginAttempts + 1 < 4 →
        (loginRoute compare st username password tfc now ip ua).1 = .invalidCredentials
          ∧ getUserById (loginRoute compare st username password tfc now ip ua).2 user.id
            = some { user with failedLoginAttempts := user.failedLoginAttempts + 1 })) := by
  have hnot : ¬ now < t := not_lt.mpr hnow
  have hroute : loginRoute compare st username password tfc now ip ua
      = loginPasswordStage compare st user password tfc now ip ua := by
    unfold loginRoute
    rw [hu]
    dsimp only
    rw [ht]
    simp [hnot]
  have hfin1 : (loginFinish st user now ip ua).1
      = .success (jwtSign user.id user.username (some user.twoFactorEnabled)
          ROUTES_JWT_SECRET now sevenDaysMs) := rfl
  have hfin2 : getUserById (loginFinish st user now ip ua).2 user.id
      = some { user with
          isLocked := false, lockoutUntil := none,
          failedLoginAttempts := 0, lastLogin := some now } := by
    unfold loginFinish
    rw [hL]
    simp only [if_true]
    rw [getUserById_createSecurityLog, getUserById_updateUserLastLogin,
        getUserById_unlockUser, hid]
    rfl
  refine ⟨hroute, ?_, ?_⟩
  · intro hcmp
    refine ⟨?_, ?_, ?_, ?_⟩
    · intro h2fa
      have hstage : loginPasswordStage compare st user password tfc now ip ua
          = loginFinish st user now ip ua := by
        unfold loginPasswordStage
        rw [hcmp, h2fa]
        simp
      rw [hroute, hstage]
      exact ⟨hfin1, hfin2⟩
    · intro h2fa htfc
      have hstage : loginPasswordStage compare st user password tfc now ip ua
          = loginFinish st user now ip ua := by
        unfold loginPasswordStage
        rw [hcmp, h2fa, htfc]
        simp
      rw [hroute, hstage]
      exact ⟨hfin1, hfin2⟩
    · intro h2fa htfc
      rw [hroute]
      unfold loginPasswordStage
      rw [hcmp, h2fa, htfc]
      simp
    · intro code h2fa htfc hcode
      have hstage : loginPasswordStage compare st user password tfc now ip ua
          = (.invalidTwoFactorCode,
             (createSecurityLog st
               { userId := some user.id, action := "2fa_failed"
                 details := "Invalid 2FA code provided", ipAddress := ip, userAgent := ua }
               now).1) := by
        unfold loginPasswordStage
        rw [hcmp, h2fa, htfc]
        simp [hcode]
      rw [hroute, hstage]
      exact ⟨rfl, by rw [getUserById_createSecurityLog]; exact hid⟩
  · intro hcmp
    rw [hroute]
    unfold loginPasswordStage
    rw [hcmp]
    simp only [Bool.false_eq_true, if_false]
    unfold loginFailedPassword
    constructor
    · intro h4
      rw [if_pos h4]
      constructor
      · rfl
      · rw [getUserById_createSecurityLog, getUserById_lockUser,
            getUserById_incrementFailedLogins, hid]
        rfl
    · intro h4
      rw [if_neg (by omega)]
      constructor
      · rfl
      · rw [getUserById_createSecurityLog, getUserById_incrementFailedLogins, hid]
        rfl

/-- The locked demo user with 2FA enabled. -/
def demoLockedUser2FA : User := { demoLockedUser with twoFactorEnabled := true }

/-- A store holding just the locked 2FA-enabled user. -/
def demoLockedStore2FA : Store :=
  { users := [demoLockedUser2FA], passwordResets := [], securityLogs := [] }

/-- Witness for C4: at the instant lockedUntil passes, the locked
account accepts the correct password and is unlocked with the counter
cleared (with 2FA off, and with 2FA on and the correct code), while a
correct password with a wrong 2FA code is rejected. -/
theorem lazy_unlock_only_on_success_witness :
    ((loginRoute demoCompare demoLockedStore "alice" "Passw0rd" none 901000 none none).1
      = .success (jwtSign "u1" "alice" (some false) ROUTES_JWT_SECRET 901000 sevenDaysMs)
  ∧ getUserById
      (loginRoute demoCompare demoLockedStore "alice" "Passw0rd" none 901000 none none).2 "u1"
      = some { demoLockedUser with
          isLocked := false, lockoutUntil := none,
          failedLoginAttempts := 0, lastLogin := some 901000 })
  ∧ (loginRoute demoCompare demoLockedStore2FA "alice" "Passw0rd" (some "123456")
        901000 none none).1
      = .success (jwtSign "u1" "alice" (some true) ROUTES_JWT_SECRET 901000 sevenDaysMs)
  ∧ (loginRoute demoCompare demoLockedStore2FA "alice" "Passw0rd" (some "999999")
        901000 none none).1
      = .invalidTwoFactorCode := by
  have h1 := lazy_unlock_only_on_success demoCompare demoLockedStore "alice" "Passw0rd" none
    901000 none none demoLockedUser 901000 rfl rfl rfl rfl (le_refl _)
  have h2 := lazy_unlock_only_on_success demoCompare demoLockedStore2FA "alice" "Passw0rd"
    (some "123456") 901000 none none demoLockedUser2FA 901000 rfl rfl rfl rfl (le_refl _)
  have h3 := lazy_unlock_only_on_success demoCompare demoLockedStore2FA "alice" "Passw0rd"
    (some "999999") 901000 none none demoLockedUser2FA 901000 rfl rfl rfl rfl (le_refl _)
  exact ⟨(h1.2.1 rfl).1 rfl,
         ((h2.2.1 rfl).2.1 rfl rfl).1,
         ((h3.2.1 rfl).2.2.2 "999999" rfl rfl (by decide)).1⟩

/-! ## C5 and C6: rate limiter -/

/-- Looking up a key right after setting it returns the set record. -/
theorem rateGet_rateSet_self (store : RateStore) (k : String) (v : RateRecord) :
    rateGet (rateSet store k v) k = some v := by
  induction store with
  | nil => simp [rateSet, rateGet]
  | cons p rest ih =>
    by_cases h : p.1 = k
    · simp [rateSet, rateGet, h]
    · simp [rateSet, rateGet, h, ih]

/-- A request under a fresh key passes and opens a window of count 1. -/
theorem rateLimiter_fresh (store : RateStore) (ip path : String) (now : Nat)
    (h : rateGet store (ip ++ ":" ++ path) = none) :
    rateLimiter store ip path now
      = (.pass, rateSet store (ip ++ ":" ++ path) { count := 1, firstAttempt := now }) := by
  simp [rateLimiter, isRateLimited, h]

/-- A request inside the window below the ceiling passes and increments
the count, keeping the window start. -/
theorem rateLimiter_inc (store : RateStore) (ip path : String) (now c f : Nat)
    (h : rateGet store (ip ++ ":" ++ path) = some { count := c, firstAttempt := f })
    (hin : now ≤ f + rateWindowMs) (hc : c < 5) :
    rateLimiter store ip path now
      = (.pass, rateSet store (ip ++ ":" ++ path) { count := c + 1, firstAttempt := f }) := by
  simp [rateLimiter, isRateLimited, h, Nat.not_lt.mpr hin, Nat.not_le.mpr hc]

/-- A request inside the window at the ceiling is rejected with
retryAfter 900 and the store is left entirely unchanged. -/
theorem rateLimiter_limited (store : RateStore) (ip path : String) (now c f : Nat)
    (h : rateGet store (ip ++ ":" ++ path) = some { count := c, firstAttempt := f })
    (hin : now ≤ f + rateWindowMs) (hc : 5 ≤ c) :
    rateLimiter store ip path now = (.rejected retryAfterSec, store) := by
  simp [rateLimiter, isRateLimited, h, Nat.not_lt.mpr hin, hc]

/-- A request after the window has elapsed passes and resets the window
to count 1 starting at the request time. -/
theorem rateLimiter_reset (store : RateStore) (ip path : String) (now c f : Nat)
    (h : rateGet store (ip ++ ":" ++ path) = some { count := c, firstAttempt := f })
    (hout : f + rateWindowMs < now) :
    rateLimiter store ip path now
      = (.pass, rateSet store (ip ++ ":" ++ path) { count := 1, firstAttempt := now }) := by
  simp [rateLimiter, isRateLimited, h, hout]

/-- Run the rateLimiter middleware on a sequence of request times for a
fixed client address and endpoint path, threading the store. -/
def runRateLimiter (store : RateStore) (ip path : String) :
    List Nat → List RateLimitOutcome × RateStore
  | [] => ([], store)
  | t :: ts =>
    let res := rateLimiter store ip path t
    let rest := runRateLimiter res.2 ip path ts
    (res.1 :: rest.1, rest.2)

/-- C5: from an empty window, the first 5 requests within the 15-minute
window pass, the 6th request in that window is rejected as rate
limited, and a request after more than 15 minutes since the first
attempt passes and resets the window to count 1 starting at the new
request time. -/
theorem rate_limit_window_behavior
    (store : RateStore) (ip path : String) (t1 t2 t3 t4 t5 t6 t7 : Nat)
    (hfresh : rateGet store (ip ++ ":" ++ path) = none)
    (h2 : t2 ≤ t1 + rateWindowMs) (h3 : t3 ≤ t1 + rateWindowMs)
    (h4 : t4 ≤ t1 + rateWindowMs) (h5 : t5 ≤ t1 + rateWindowMs)
    (h6 : t6 ≤ t1 + rateWindowMs) (h7 : t1 + rateWindowMs < t7) :
    (runRateLimiter store ip path [t1, t2, t3, t4, t5, t6, t7]).1
      = [.pass, .pass, .pass, .pass, .pass, .rejected retryAfterSec, .pass]
  ∧ rateGet (runRateLimiter store ip path [t1, t2, t3, t4, t5, t6, t7]).2
      (ip ++ ":" ++ path) = some { count := 1, firstAttempt := t7 } := by
  have e1 := rateLimiter_fresh store ip path t1 hfresh
  have g1 : rateGet (rateSet store (ip ++ ":" ++ path) { count := 1, firstAttempt := t1 })
      (ip ++ ":" ++ path) = some { count := 1, firstAttempt := t1 } :=
    rateGet_rateSet_self _ _ _
  have e2 := rateLimiter_inc _ ip path t2 1 t1 g1 h2 (by omega)
  have g2 : rateGet (rateSet (rateSet store (ip ++ ":" ++ path) { count := 1, firstAttempt := t1 })
      (ip ++ ":" ++ path) { count := 2, firstAttempt := t1 })
      (ip ++ ":" ++ path) = some { count := 2, firstAttempt := t1 } :=
    rateGet_rateSet_self _ _ _
  have e3 := rateLimiter_inc _ ip path t3 2 t1 g2 h3 (by omega)
  have g3 : rateGet (rateSet (rateSet (rateSet store (ip ++ ":" ++ path)
      { count := 1, firstAttempt := t1 })
      (ip ++ ":" ++ path) { count := 2, firstAttempt := t1 })
      (ip ++ ":" ++ path) { count := 3, firstAttempt := t1 })
      (ip ++ ":" ++ path) = some { count := 3, firstAttempt := t1 } :=
    rateGet_rateSet_self _ _ _
  have e4 := rateLimiter_inc _ ip path t4 3 t1 g3 h4 (by omega)
  have g4 : rateGet (rateSet (rateSet (rateSet (rateSet store (ip ++ ":" ++ path)
      { count := 1, firstAttempt := t1 })
      (ip ++ ":" ++ path) { count := 2, firstAttempt := t1 })
      (ip ++ ":" ++ path) { count := 3, firstAttempt := t1 })
      (ip ++ ":" ++ path) { count := 4, firstAttempt := t1 })
      (ip ++ ":" ++ path) = some { count := 4, firstAttempt := t1 } :=
    rateGet_rateSet_self _ _ _
  have e5 := rateLimiter_inc _ ip path t5 4 t1 g4 h5 (by omega)
  have g5 : rateGet (rateSet (rateSet (rateSet (rateSet (rateSet store (ip ++ ":" ++ path)
      { count := 1, firstAttempt := t1 })
      (ip ++ ":" ++ path) { count := 2, firstAttempt := t1 })
      (ip ++ ":" ++ path) { count := 3, firstAttempt := t1 })
      (ip ++ ":" ++ path) { count := 4, firstAttempt := t1 })
      (ip ++ ":" ++ path) { count := 5, firstAttempt := t1 })
      (ip ++ ":" ++ path) = some { count := 5, firstAttempt := t1 } :=
    rateGet_rateSet_self _ _ _
  have e6 := rateLimiter_limited _ ip path t6 5 t1 g5 h6 (le_refl 5)
  have e7 := rateLimiter_reset _ ip path t7 5 t1 g5 h7
  refine ⟨?_, ?_⟩ <;>
    simp only [runRateLimiter, e1, e2, e3, e4, e5, e6, e7, rateGet_rateSet_self]

/-- Witness for C5: concrete run with five requests at time 0, a sixth
at time 0 and a seventh after the window. -/
theorem rate_limit_window_behavior_witness :
    (runRateLimiter [] "1.2.3.4" "/auth/login" [0, 0, 0, 0, 0, 0, rateWindowMs + 1]).1
      = [.pass, .pass, .pass, .pass, .pass, .rejected retryAfterSec, .pass]
  ∧ rateGet (runRateLimiter [] "1.2.3.4" "/auth/login" [0, 0, 0, 0, 0, 0, rateWindowMs + 1]).2
      ("1.2.3.4" ++ ":" ++ "/auth/login")
      = some { count := 1, firstAttempt := rateWindowMs + 1 } :=
  rate_limit_window_behavior [] "1.2.3.4" "/auth/login" 0 0 0 0 0 0 (rateWindowMs + 1)
    rfl (by omega) (by omega) (by omega) (by omega) (by omega) (by omega)

/-- Counterexample for C6: the claim says the counter continues
accumulating on further requests within the same window after a
rejection.  Running seven same-window requests from an empty store:
the 6th and 7th are rejected, and the stored count is 5 after six
requests and still 5 after seven; the rejected requests did not
accumulate anything. -/
theorem rejected_requests_do_not_accumulate :
    (runRateLimiter [] "1.2.3.4" "/auth/login" [0, 0, 0, 0, 0, 0, 0]).1
      = [.pass, .pass, .pass, .pass, .pass, .rejected retryAfterSec, .rejected retryAfterSec]
  ∧ rateGet (runRateLimiter [] "1.2.3.4" "/auth/login" [0, 0, 0, 0, 0, 0]).2
      ("1.2.3.4" ++ ":" ++ "/auth/login") = some { count := 5, firstAttempt := 0 }
  ∧ rateGet (runRateLimiter [] "1.2.3.4" "/auth/login" [0, 0, 0, 0, 0, 0, 0]).2
      ("1.2.3.4" ++ ":" ++ "/auth/login") = some { count := 5, firstAttempt := 0 } :=
  ⟨rfl, rfl, rfl⟩

/-- C6 (amended): a rate-limited request leaves the store entirely
unchanged: the counter is not reset but also not incremented, and the
window start is kept; the rejection carries a retry-after hint of 900
seconds, which equals the 15-minute window length. -/
theorem rejection_leaves_window_unchanged
    (store : RateStore) (ip path : String) (now : Nat) (r : RateRecord)
    (h : rateGet store (ip ++ ":" ++ path) = some r)
    (hin : now ≤ r.firstAttempt + rateWindowMs) (hc : 5 ≤ r.count) :
    rateLimiter store ip path now = (.rejected retryAfterSec, store)
  ∧ retryAfterSec * 1000 = rateWindowMs :=
  ⟨rateLimiter_limited store ip path now r.count r.firstAttempt h hin hc, rfl⟩

/-- Witness for C6: a store holding a full window rejects a request
without any change. -/
theorem rejection_leaves_window_unchanged_witness :
    rateLimiter [("1.2.3.4" ++ ":" ++ "/auth/login", { count := 5, firstAttempt := 0 })]
      "1.2.3.4" "/auth/login" 10
      = (.rejected retryAfterSec,
          [("1.2.3.4" ++ ":" ++ "/auth/login", { count := 5, firstAttempt := 0 })])
  ∧ retryAfterSec * 1000 = rateWindowMs :=
  rejection_leaves_window_unchanged
    [("1.2.3.4" ++ ":" ++ "/auth/login", { count := 5, firstAttempt := 0 })]
    "1.2.3.4" "/auth/login" 10 { count := 5, firstAttempt := 0 }
    (by simp [rateGet]) (by decide) (le_refl 5)

/-! ## C7: token service -/

/-- C7: verifying a token right after issuing it returns the original
identity claims; verifying once the 7-day TTL has elapsed returns the
null sentinel rather than an exception, as verification also does for
malformed tokens and for tokens signed under a different secret. -/
theorem token_roundtrip_expiry_and_rejection
    (u : User) (now later t : Nat) (raw : String) (p : JWTPayload) (s : String) :
    verifyToken (generateToken u now) now
      = some { userId := u.id, username := u.username, twoFactorEnabled := none,
               iat := now, exp := now + sevenDaysMs }
  ∧ (now + sevenDaysMs ≤ later → verifyToken (generateToken u now) later = none)
  ∧ verifyToken (.malformed raw) t = none
  ∧ (s ≠ JWT_SECRET → verifyToken (.signed p s) t = none) := by
  refine ⟨?_, ?_, rfl, ?_⟩
  · have hlt : now < now + sevenDaysMs := Nat.lt_add_of_pos_right (by decide)
    simp [verifyToken, jwtVerify, generateToken, jwtSign, hlt]
  · intro h
    have hge : ¬ later < now + sevenDaysMs := Nat.not_lt.mpr h
    simp [verifyToken, jwtVerify, generateToken, jwtSign, hge]
  · intro h
    simp [verifyToken, jwtVerify, h]

/-- Witness for C7: a token issued at time 0 no longer verifies exactly
when the TTL has elapsed, and a token under another secret never
verifies. -/
theorem token_roundtrip_expiry_and_rejection_witness :
    verifyToken (generateToken demoUser 0) sevenDaysMs = none
  ∧ verifyToken
      (.signed { userId := "u1", username := "alice", twoFactorEnabled := none,
                 iat := 0, exp := 10 } "other-secret") 5 = none := by
  have h := token_roundtrip_expiry_and_rejection demoUser 0 sevenDaysMs 5 "junk"
    { userId := "u1", username := "alice", twoFactorEnabled := none, iat := 0, exp := 10 }
    "other-secret"
  exact ⟨h.2.1 (by omega), h.2.2.2 (by decide)⟩

/-! ## C8: password reset is single use -/

/-- markPasswordResetUsed does not touch the user map. -/
theorem getUserById_markPasswordResetUsed (st : Store) (i j : String) :
    getUserById (markPasswordResetUsed st i) j = getUserById st j := rfl

/-- updateUser does not touch the reset tickets. -/
theorem getPasswordResetByToken_updateUser (st : Store) (i : String)
    (f : User → User) (tk : String) :
    getPasswordResetByToken (updateUser st i f) tk = getPasswordResetByToken st tk := rfl

/-- createSecurityLog does not touch the reset tickets. -/
theorem getPasswordResetByToken_createSecurityLog (st : Store)
    (e : InsertSecurityLog) (now : Nat) (tk : String) :
    getPasswordResetByToken (createSecurityLog st e now).1 tk
      = getPasswordResetByToken st tk := rfl

/-- After marking the only ticket carrying a given token as used, no
usable ticket with that token remains. -/
theorem getPasswordResetByToken_after_mark (st : Store) (token i : String)
    (hall : ∀ x ∈ st.passwordResets, x.token = token → x.id = i) :
    getPasswordResetByToken (markPasswordResetUsed st i) token = none := by
  unfold getPasswordResetByToken markPasswordResetUsed
  dsimp only
  rw [List.find?_eq_none]
  intro x hx
  rcases List.mem_map.mp hx with ⟨y, hy, rfl⟩
  by_cases h : y.id = i
  · simp [h]
  · simp only [h, if_false, Bool.and_eq_true, Bool.not_eq_true', not_and, decide_eq_true_eq]
    intro htk
    exact absurd (hall y hy htk) h

/-- C8: with a usable (unused, unexpired) ticket uniquely carrying its
token, completeReset succeeds, replaces the stored password hash, and
any second call with the same token fails with the invalid-token error
and leaves the whole store (hence the password hash) unchanged;
moreover any failing completeReset call leaves the store unchanged, so
it never marks a ticket used. -/
theorem reset_ticket_single_use
    (hash1 : String → String) (st : Store) (token p1 : String) (now1 : Nat)
    (ip ua : Option String) (r : PasswordReset) (user : User)
    (huniq : ∀ x ∈ st.passwordResets, x.token = token → x.id = r.id)
    (hfind : getPasswordResetByToken st token = some r)
    (hexp : ¬ r.expiresAt < now1)
    (huser : getUserById st r.userId = some user) :
    (passwordResetRoute hash1 st token p1 now1 ip ua).1 = .success
  ∧ getUserById (passwordResetRoute hash1 st token p1 now1 ip ua).2 r.userId
      = some { user with passwordHash := hash1 p1 }
  ∧ (∀ (hash2 : String → String) (p2 : String) (now2 : Nat) (ip2 ua2 : Option String),
      passwordResetRoute hash2 (passwordResetRoute hash1 st token p1 now1 ip ua).2
          token p2 now2 ip2 ua2
        = (.invalidToken, (passwordResetRoute hash1 st token p1 now1 ip ua).2))
  ∧ (∀ (hash0 : String → String) (st0 : Store) (tk p0 : String) (now0 : Nat)
        (ip0 ua0 : Option String),
      (passwordResetRoute hash0 st0 tk p0 now0 ip0 ua0).1 ≠ .success →
      (passwordResetRoute hash0 st0 tk p0 now0 ip0 ua0).2 = st0) := by
  have hid : user.id = r.userId := by
    have := List.find?_some huser
    simpa using this
  have hout : passwordResetRoute hash1 st token p1 now1 ip ua
      = (.success,
         (createSecurityLog
           (markPasswordResetUsed (updateUserPasswordHash st user.id (hash1 p1)) r.id)
           { userId := some r.userId, action := "password_reset_completed"
             details := "Password reset completed", ipAddress := ip, userAgent := ua }
           now1).1) := by
    unfold passwordResetRoute
    rw [hfind]
    dsimp only
    rw [if_neg hexp, huser]
  refine ⟨?_, ?_, ?_, ?_⟩
  · rw [hout]
  · rw [hout]
    dsimp only
    rw [getUserById_createSecurityLog, getUserById_markPasswordResetUsed, ← hid,
        getUserById_updateUserPasswordHash]
    have huser' : getUserById st user.id = some user := by rw [hid]; exact huser
    rw [huser']
    rfl
  · intro hash2 p2 now2 ip2 ua2
    rw [hout]
    dsimp only
    have hnone : getPasswordResetByToken
        ((createSecurityLog
          (markPasswordResetUsed (updateUserPasswordHash st user.id (hash1 p1)) r.id)
          { userId := some r.userId, action := "password_reset_completed"
            details := "Password reset completed", ipAddress := ip, userAgent := ua }
          now1).1) token = none := by
      rw [getPasswordResetByToken_createSecurityLog]
      exact getPasswordResetByToken_after_mark _ token r.id (fun x hx => huniq x hx)
    unfold passwordResetRoute
    rw [hnone]
  · intro hash0 st0 tk p0 now0 ip0 ua0 hne
    unfold passwordResetRoute at hne ⊢
    cases hq : getPasswordResetByToken st0 tk with
    | none => rfl
    | some rr =>
      rw [hq] at hne
      dsimp only at hne ⊢
      by_cases hE : rr.expiresAt < now0
      · rw [if_pos hE]
      · rw [if_neg hE] at hne
        exact absurd rfl hne

/-- A usable demo reset ticket for the demo user. -/
def demoReset : PasswordReset :=
  { id := "pr1", userId := "u1", token := "tok1", expiresAt := 1000, used := false
    createdAt := 0 }

/-- A store holding the demo user and the demo ticket. -/
def demoResetStore : Store :=
  { users := [demoUser], passwordResets := [demoReset], securityLogs := [] }

/-- Witness for C8: completing the reset once succeeds; the second call
with the same token fails and changes nothing. -/
theorem reset_ticket_single_use_witness :
    (passwordResetRoute demoHash demoResetStore "tok1" "NewPass1" 100 none none).1 = .success
  ∧ passwordResetRoute demoHash
      (passwordResetRoute demoHash demoResetStore "tok1" "NewPass1" 100 none none).2
      "tok1" "OtherPass1" 200 none none
      = (.invalidToken,
         (passwordResetRoute demoHash demoResetStore "tok1" "NewPass1" 100 none none).2) := by
  have h := reset_ticket_single_use demoHash demoResetStore "tok1" "NewPass1" 100 none none
    demoReset demoUser (by decide) rfl (by decide) rfl
  exact ⟨h.1, h.2.2.1 demoHash "OtherPass1" 200 none none⟩

/-! ## C9: security log query -/

/-- Run a sequence of createSecurityLog calls, returning the final
store and the list of entry values as they were returned at creation
time. -/
def runCreates : Store → List (InsertSecurityLog × Nat) → Store × List SecurityLog
  | st, [] => (st, [])
  | st, (e, now) :: rest =>
    let c := createSecurityLog st e now
    let r := runCreates c.1 rest
    (r.1, c.2 :: r.2)

/-- C9: after any sequence of createSecurityLog calls, querying the log
filtered to an account id returns exactly the previously present
entries for that account followed by the entries recorded for it
during the sequence, each equal to the value returned when it was
appended, in insertion order. -/
theorem security_log_query_exact
    (st : Store) (es : List (InsertSecurityLog × Nat)) (uid : String) :
    getSecurityLogs (runCreates st es).1 (some uid)
      = getSecurityLogs st (some uid)
        ++ (runCreates st es).2.filter (fun l => l.userId = some uid) := by
  induction es generalizing st with
  | nil => simp [runCreates]
  | cons p rest ih =>
    obtain ⟨e, now⟩ := p
    simp only [runCreates]
    rw [ih]
    by_cases h : e.userId = some uid <;>
      simp [getSecurityLogs, createSecurityLog, h, List.filter_append]

/-! ## C10: token verification is independent of lockout state -/

/-- Two user records equal in every field except the lockout state
(isLocked, lockoutUntil, failedLoginAttempts). -/
def sameExceptLockout (u v : User) : Prop :=
  u.id = v.id ∧ u.username = v.username ∧ u.email = v.email ∧
  u.passwordHash = v.passwordHash ∧ u.createdAt = v.createdAt ∧
  u.lastLogin = v.lastLogin ∧ u.twoFactorSecret = v.twoFactorSecret ∧
  u.twoFactorEnabled = v.twoFactorEnabled

/-- Two stores that differ only in the lockout fields of their user
records. -/
def lockoutEquiv (st1 st2 : Store) : Prop :=
  List.Forall₂ sameExceptLockout st1.users st2.users ∧
  st1.passwordResets = st2.passwordResets ∧ st1.securityLogs = st2.securityLogs

/-- Looking up a user id in two lockout-equivalent user lists yields
the same identity claims (id, username, twoFactorEnabled). -/
theorem find?_id_lockoutEquiv (l1 l2 : List User) (i : String)
    (h : List.Forall₂ sameExceptLockout l1 l2) :
    Option.map (fun u => (u.id, u.username, u.twoFactorEnabled))
        (l1.find? (fun u => u.id = i))
      = Option.map (fun u => (u.id, u.username, u.twoFactorEnabled))
        (l2.find? (fun u => u.id = i)) := by
  induction h with
  | nil => rfl
  | @cons a b l1 l2 hab hrest ih =>
    obtain ⟨hid, hun, -, -, -, -, -, h2fa⟩ := hab
    by_cases hp : a.id = i
    · have hq : b.id = i := by rw [← hid]; exact hp
      rw [List.find?_cons_of_pos _ (by simpa using hp),
          List.find?_cons_of_pos _ (by simpa using hq)]
      simp [hid, hun, h2fa]
    · have hq : ¬ b.id = i := by rw [← hid]; exact hp
      rw [List.find?_cons_of_neg _ (by simpa using hp),
          List.find?_cons_of_neg _ (by simpa using hq)]
      exact ih

/-- C10: the accept/reject decision of token verification, and the
refresh endpoint behind it, read none of the lockout fields: refresh
outcomes agree on any two stores that differ only in isLocked,
lockoutUntil and failedLoginAttempts; and an unexpired token issued by
generateToken before an account was locked still authenticates and is
exchanged for a fresh 7-day token, whatever the lockout fields of the
stored user record. -/
theorem token_auth_independent_of_lockout :
    (∀ (st1 st2 : Store) (tok : Option Token) (now : Nat), lockoutEquiv st1 st2 →
        (refreshRoute st1 tok now).1 = (refreshRoute st2 tok now).1)
  ∧ (∀ (st : Store) (u w : User) (t0 now : Nat),
        getUserById st u.id = some w → now < t0 + sevenDaysMs →
        authenticateToken (some (generateToken u t0)) now
            = .authenticated {
                userId := u.id, username := u.username,
                twoFactorEnabled := none, iat := t0, exp := t0 + sevenDaysMs }
          ∧ (refreshRoute st (some (generateToken u t0)) now).1
            = .success (jwtSign w.id w.username (some w.twoFactorEnabled)
                ROUTES_JWT_SECRET now sevenDaysMs)) := by
  constructor
  · intro st1 st2 tok now h
    obtain ⟨hu, -, -⟩ := h
    unfold refreshRoute
    cases hq : authenticateToken tok now with
    | missingToken => rfl
    | invalidToken => rfl
    | authenticated payload =>
      dsimp only
      have hm := find?_id_lockoutEquiv st1.users st2.users payload.userId hu
      unfold getUserById
      cases h1 : st1.users.find? (fun u => u.id = payload.userId) with
      | none =>
        rw [h1] at hm
        cases h2 : st2.users.find? (fun u => u.id = payload.userId) with
        | none => rfl
        | some w2 =>
          rw [h2] at hm
          exact absurd hm (by simp)
      | some w1 =>
        rw [h1] at hm
        cases h2 : st2.users.find? (fun u => u.id = payload.userId) with
        | none =>
          rw [h2] at hm
          exact absurd hm (by simp)
        | some w2 =>
          rw [h2] at hm
          simp only [Option.map_some', Option.some.injEq, Prod.mk.injEq] at hm
          obtain ⟨e1, e2, e3⟩ := hm
          dsimp only
          rw [e1, e2, e3]
  · intro st u w t0 now huser hnow
    have hauth : authenticateToken (some (generateToken u t0)) now
        = .authenticated {
            userId := u.id, username := u.username,
            twoFactorEnabled := none, iat := t0, exp := t0 + sevenDaysMs } := by
      simp [authenticateToken, verifyToken, jwtVerify, generateToken, jwtSign, hnow]
    refine ⟨hauth, ?_⟩
    unfold refreshRoute
    rw [hauth]
    dsimp only
    rw [huser]

/-- Witness for C10: the locked and unlocked variants of the demo store
give the same refresh outcome, and a token issued before the lock still
refreshes to a fresh 7-day token while the account is locked. -/
theorem token_auth_independent_of_lockout_witness :
    (refreshRoute demoLockedStore (some (generateToken demoLockedUser 0)) 5).1
      = (refreshRoute demoStore (some (generateToken demoLockedUser 0)) 5).1
  ∧ (refreshRoute demoLockedStore (some (generateToken demoLockedUser 0)) 5).1
      = .success (jwtSign "u1" "alice" (some false) ROUTES_JWT_SECRET 5 sevenDaysMs) := by
  have heq : lockoutEquiv demoLockedStore demoStore :=
    ⟨List.Forall₂.cons ⟨rfl, rfl, rfl, rfl, rfl, rfl, rfl, rfl⟩ List.Forall₂.nil, rfl, rfl⟩
  have h := token_auth_independent_of_lockout
  refine ⟨h.1 demoLockedStore demoStore (some (generateToken demoLockedUser 0)) 5 heq, ?_⟩
  have h2 := h.2 demoLockedStore demoLockedUser demoLockedUser 0 5 rfl (by decide)
  exact h2.2

end Nexus
